import Mathlib

/-!
Verification development for the bitAi repository: an orchestration-and-settlement
engine that decomposes a task into a plan of capability steps, executes the plan by
dispatching each step to a registered worker while chaining outputs and accumulating
cost, and accompanies work with signed payment vouchers (IOUs).

Python strings are modelled as lists of characters, Python numbers as Nat or Rat,
raising functions as Except, and object state as explicit records threaded through
the operations. External collaborators (the eth_account signing library, the
generative-language backend, HTTP fetches, JSON parsing) appear as explicitly
passed outcomes or as idealized primitives described by the specification.
-/

/-- Python strings, modelled as lists of characters. -/
abbrev PyStr := List Char

/-- Characters of a Lean string literal, used to transcribe Python string literals. -/
def pyStr (s : String) : PyStr := s.data

/-- Python str.lower, modelled as character-wise lowercasing. -/
def pyLower (s : PyStr) : PyStr := s.map Char.toLower

/-- Decimal digit character, as produced by Python str on an integer. -/
def decDigit (n : Nat) : Char := Char.ofNat (48 + n)

/-- Decimal rendering of a natural number, modelling Python f-string interpolation
of a nonnegative integer. -/
def natChars (n : Nat) : PyStr :=
  if _h : n < 10 then [decDigit n] else natChars (n / 10) ++ [decDigit (n % 10)]
decreasing_by exact Nat.div_lt_self (by omega) (by omega)

/-- Single fold step for reading a decimal numeral back. -/
def decStep (a : Nat) (c : Char) : Nat := 10 * a + (c.toNat - 48)

/-- Value of a decimal numeral, the left inverse of natChars. -/
def decVal (l : PyStr) : Nat := l.foldl decStep 0

/-- Hexadecimal digit test for private-key strings. -/
def hexDigitChar (c : Char) : Bool :=
  c.isDigit || (('a' ≤ c) && (c ≤ 'f')) || (('A' ≤ c) && (c ≤ 'F'))

/-! ## Idealized model of the external eth_account library

The repository signs and verifies vouchers through the eth_account package, an
external collaborator that is not part of this repository. Modelled from the
spec: an Ethereum-compatible personal-message signing scheme producing a
recoverable signature, so a well-formed signature is determined by the signing
key and the signed message; recovering from the very message that was signed
yields the signer address, recovering from any other message yields a garbage
address that is not the signer address; recovery from a corrupted or
wrong-length signature string raises. Address derivation accepts a key with or
without the 0x prefix. -/

/-- A well-formed recoverable signature: determined by signing key and message. -/
structure EthSig where
  key : PyStr
  msg : PyStr
deriving DecidableEq

/-- Wire form of a signature: either a well-formed signature in hex encoding, or
a corrupted / wrong-length string that fails to decode during recovery. -/
inductive SigHex
  | wellFormed (sig : EthSig)
  | malformed (raw : PyStr)
deriving DecidableEq

/-- Python exceptions that the modelled code can raise. -/
inductive PyErr
  | valueError
  | notImplemented
  | attributeError
  | badSignature
  | backendError (msg : PyStr)
deriving DecidableEq

/-- Modelled from the spec: eth_account address derivation from a private key,
idealized as an injective tag over the 0x-normalized key. -/
def addressOf (private_key : PyStr) : PyStr :=
  pyStr "ADDR" ++ (if (pyStr "0x").isPrefixOf private_key then private_key
                   else pyStr "0x" ++ private_key)

/-- Modelled from the spec: Account.sign_message over the personal-message
encoding of the payload. -/
def ethSign (msg : PyStr) (private_key : PyStr) : EthSig := ⟨private_key, msg⟩

/-- Modelled from the spec: Account.recover_message. Returns the signer address
when the presented message is the signed one, a garbage address otherwise, and
raises on a malformed signature string. -/
def ethRecover (msg : PyStr) (s : SigHex) : Except PyErr PyStr :=
  match s with
  | .malformed _ => .error .badSignature
  | .wellFormed sig =>
      .ok (if msg = sig.msg then pyStr "ADDR" ++ sig.key else pyStr "?" ++ sig.key)

/-! ## src/agents/core/wallet.py -/

/-- The signed payment IOU dictionary returned by sign_payment_iou. -/
structure Voucher where
  recipient : PyStr
  amount : Nat
  nonce : Nat
  signature : SigHex
  message : PyStr
deriving DecidableEq

/-- The payment message template of src/agents/core/wallet.py: recipient,
amount and nonce joined by colons. -/
def iouMessage (recipient : PyStr) (amount nonce : Nat) : PyStr :=
  recipient ++ pyStr ":" ++ natChars amount ++ pyStr ":" ++ natChars nonce

/-- src/agents/core/wallet.py sign_payment_iou: normalize the key to carry the
0x prefix, build the colon-joined message, sign it, and return the voucher. -/
def sign_payment_iou (private_key recipient : PyStr) (amount nonce : Nat) : Voucher :=
  let pk := if (pyStr "0x").isPrefixOf private_key then private_key
            else pyStr "0x" ++ private_key
  let message := iouMessage recipient amount nonce
  { recipient := recipient
    amount := amount
    nonce := nonce
    signature := .wellFormed (ethSign message pk)
    message := message }

/-- src/agents/core/wallet.py verify_payment_signature: rebuild the message,
recover the signer, compare case-insensitively; any recovery exception is
caught and yields false. -/
def verify_payment_signature (recipient : PyStr) (amount nonce : Nat)
    (signature : SigHex) (expected_signer : PyStr) : Bool :=
  match ethRecover (iouMessage recipient amount nonce) signature with
  | .ok recovered => decide (pyLower recovered = pyLower expected_signer)
  | .error _ => false

/-! ## src/core/wallet.py (legacy wallet variant) -/

/-- The packet template of src/core/wallet.py: PAY, AMT and NONCE tagged fields. -/
def payment_data (recipient_address : PyStr) (amount nonce : Nat) : PyStr :=
  pyStr "PAY:" ++ recipient_address ++ pyStr ":AMT:" ++ natChars amount
    ++ pyStr ":NONCE:" ++ natChars nonce

/-- src/core/wallet.py sign_payment_iou (legacy variant): returns only the hex
signature over the tagged packet; no key normalization is performed. -/
def sign_payment_iou_legacy (private_key recipient_address : PyStr)
    (amount nonce : Nat) : SigHex :=
  .wellFormed (ethSign (payment_data recipient_address amount nonce) private_key)

/-- src/core/wallet.py verify_iou: rebuilds the packet and recovers the signer
with no exception handling, so a recovery fault propagates to the caller. -/
def verify_iou (signature : SigHex) (signer_address recipient_address : PyStr)
    (amount nonce : Nat) : Except PyErr Bool :=
  match ethRecover (payment_data recipient_address amount nonce) signature with
  | .error e => .error e
  | .ok recovered => .ok (decide (pyLower recovered = pyLower signer_address))

/-! ## src/agents/orchestrator.py -/

/-- One step of a decomposed plan: a dictionary with agent and instruction keys. -/
structure PlanStep where
  agent : PyStr
  instruction : PyStr
deriving DecidableEq

/-- One entry of the results list built by UniversalOrchestrator.run. -/
structure TrailEntry where
  step : Nat
  agent : PyStr
  instruction : PyStr
  output_preview : PyStr
  cost : Rat
deriving DecidableEq

/-- The dictionary returned by UniversalOrchestrator.run. -/
structure RunResult where
  final_output : PyStr
  total_cost : Rat
  steps : List TrailEntry
deriving DecidableEq

/-- The uniform worker contract: execute takes the chained data and either
returns an output together with a cost or raises. -/
abbrev Worker := PyStr → Except PyErr (PyStr × Rat)

/-- The capability registry: the specialists dictionary of the orchestrator. -/
abbrev Specialists := List (PyStr × Worker)

/-- Python dict.get with default None. -/
def dictGet (m : Specialists) (k : PyStr) : Option Worker :=
  match m with
  | [] => none
  | (k2, w) :: rest => if k2 = k then some w else dictGet rest k

/-- Mutable state of a UniversalOrchestrator instance: total_cost is set to 0
in the constructor and only ever incremented by run. -/
structure Orchestrator where
  total_cost : Rat
deriving DecidableEq

/-- The fixed fallback plan substituted when parsing the LLM plan fails. -/
def fallbackPlan : List PlanStep :=
  [⟨pyStr "summarizer", pyStr "process the input"⟩]

/-- Plan decomposition of UniversalOrchestrator.run steps 1 and 2: the LLM call
and json.loads are external; their combined outcome is the parsed argument
(none models a json.JSONDecodeError), in which case the except arm substitutes
the fixed fallback plan. The returned plan carries no marker distinguishing a
fallback plan from a genuine one. -/
def decomposePlan (user_query : PyStr) (parsed : Option (List PlanStep)) :
    List PlanStep :=
  match parsed with
  | some plan => plan
  | none => fallbackPlan

/-- The bounded output preview recorded in each trail entry: the first 200
characters with an ellipsis marker when the output is longer than 200. -/
def preview200 (s : PyStr) : PyStr :=
  if s.length > 200 then s.take 200 ++ pyStr "..." else s

/-- The chaining loop of UniversalOrchestrator.run: for each step, look the
agent up in the specialists dictionary; a missing agent is skipped (continue)
with no trail entry; a found agent is executed on the chained data (a raised
worker fault propagates), its output becomes the chained data, its cost is
added, and a trail entry with a bounded output preview is appended. -/
def runSteps (specialists : Specialists) :
    List PlanStep → Nat → PyStr → Rat → List TrailEntry →
    Except PyErr (PyStr × Rat × List TrailEntry)
  | [], _, current_data, total_cost, results => .ok (current_data, total_cost, results)
  | step :: rest, i, current_data, total_cost, results =>
    match dictGet specialists step.agent with
    | none => runSteps specialists rest (i + 1) current_data total_cost results
    | some w =>
      match w current_data with
      | .error e => .error e
      | .ok (out, cost) =>
        runSteps specialists rest (i + 1) out (total_cost + cost)
          (results ++ [⟨i + 1, step.agent, step.instruction, preview200 out, cost⟩])

/-- src/agents/orchestrator.py UniversalOrchestrator.run: decompose, then chain.
The instance total_cost is not reset on entry; the loop adds each executed
step cost to it and the returned dictionary reports its final value. -/
def UniversalOrchestrator.run (o : Orchestrator) (specialists : Specialists)
    (user_query : PyStr) (parsed : Option (List PlanStep)) :
    Except PyErr (RunResult × Orchestrator) :=
  let plan := decomposePlan user_query parsed
  match runSteps specialists plan 0 user_query o.total_cost [] with
  | .error e => .error e
  | .ok (current_data, total_cost, results) =>
    .ok ({ final_output := current_data, total_cost := total_cost, steps := results },
         { total_cost := total_cost })

/-- The execute method reached through every agent constructed in
specialists.py: those classes inherit BaseAgent without overriding execute
(they define execute_service instead, calling a nonexistent ask_ai helper), so
BaseAgent.execute runs and raises NotImplementedError unconditionally. -/
def baseAgentExecute : Worker := fun _ => .error .notImplemented

/-- The specialists dictionary built in UniversalOrchestrator.__init__ from the
specialists.py classes. -/
def orchestratorSpecialists : Specialists :=
  [(pyStr "summarizer", baseAgentExecute),
   (pyStr "translator", baseAgentExecute),
   (pyStr "scraper", baseAgentExecute),
   (pyStr "image_gen", baseAgentExecute),
   (pyStr "pdf_loader", baseAgentExecute)]

/-- A deterministic stub worker honoring the registry contract, used to
exercise the chain on concrete inputs. -/
def stubWorker : Worker := fun _ => .ok (pyStr "out", 1/2)

/-! ## src/agents/base_agent.py -/

/-- Mutable attributes of a BaseAgent instance. -/
structure BaseAgentState where
  name : PyStr
  service_type : PyStr
  price : Rat
  wallet : Option PyStr
  private_key : Option PyStr
  nonce : Nat
  total_earned : Rat
  jobs_completed : Nat
deriving DecidableEq

/-- BaseAgent.__init__: identity comes from the environment (modelled as the
envWallet and envKey arguments); nonce, total_earned and jobs_completed start
at zero. -/
def BaseAgentState.init (name service_type : PyStr) (price : Rat)
    (envWallet envKey : Option PyStr) : BaseAgentState :=
  { name := name, service_type := service_type, price := price,
    wallet := envWallet, private_key := envKey,
    nonce := 0, total_earned := 0, jobs_completed := 0 }

/-- BaseAgent.generate_iou: raises ValueError when the private key is falsy
(absent or empty), otherwise increments the nonce and signs with the new
nonce value. -/
def BaseAgentState.generate_iou (a : BaseAgentState) (worker_wallet : PyStr)
    (amount : Nat) : Except PyErr (Voucher × BaseAgentState) :=
  match a.private_key with
  | none => .error .valueError
  | some pk =>
    if pk = [] then .error .valueError
    else
      let a2 := { a with nonce := a.nonce + 1 }
      .ok (sign_payment_iou pk worker_wallet amount a2.nonce, a2)

/-- BaseAgent.confirm_payment: unconditionally adds the amount to
total_earned, increments jobs_completed, and returns True. -/
def BaseAgentState.confirm_payment (a : BaseAgentState) (channel_id : PyStr)
    (amount : Rat) (from_wallet : PyStr) : Bool × BaseAgentState :=
  (true, { a with total_earned := a.total_earned + amount,
                  jobs_completed := a.jobs_completed + 1 })

/-- Outcome of the external registration HTTP call made by BaseAgent.register. -/
inductive RegR
  | okData (wallet privateKey : Option PyStr)
  | notOk
  | exn
deriving DecidableEq

/-- BaseAgent.register: on a successful response, store the returned wallet and
private key and return the data; any failure or exception is caught and
returns None, leaving the state unchanged. -/
def BaseAgentState.register (a : BaseAgentState) (resp : RegR) :
    Option (Option PyStr × Option PyStr) × BaseAgentState :=
  match resp with
  | .okData w k => (some (w, k), { a with wallet := w, private_key := k })
  | .notOk => (none, a)
  | .exn => (none, a)

/-- The payment request dictionary built by create_payment_request: a pure data
construction with the amount rendered as a string. -/
structure PaymentRequest where
  fromWallet : PyStr
  toWallet : Option PyStr
  amount : PyStr
  service_type : PyStr
  channel_id : Option PyStr
deriving DecidableEq

/-- src/agents/core/wallet.py create_payment_request. -/
def create_payment_request (from_wallet : PyStr) (to_wallet : Option PyStr)
    (amount : Nat) (service_type : PyStr) (channel_id : Option PyStr) :
    PaymentRequest :=
  ⟨from_wallet, to_wallet, natChars amount, service_type, channel_id⟩

/-- BaseAgent.request_payment: delegates to create_payment_request; reads the
state, never mutates it. -/
def BaseAgentState.request_payment (a : BaseAgentState) (from_wallet : PyStr)
    (amount : Nat) (channel_id : Option PyStr) : PaymentRequest :=
  create_payment_request from_wallet a.wallet amount a.service_type channel_id

/-! ## src/agents/scraper.py and src/agents/summarizer.py -/

/-- The two input shapes a worker may receive: a bare string threaded from the
previous chain step, or a structured record with named fields. -/
inductive PyInput
  | str (s : PyStr)
  | dict (m : List (PyStr × PyStr))
deriving DecidableEq

/-- Python dict.get with a default value, for string-valued dictionaries. -/
def dictLookup (m : List (PyStr × PyStr)) (k : PyStr) (dflt : PyStr) : PyStr :=
  match m with
  | [] => dflt
  | (k2, v) :: rest => if k2 = k then v else dictLookup rest k dflt

/-- Outcome of the external HTTP fetch plus BeautifulSoup extraction performed
inside ScraperAgent.execute. On success it carries the stripped title and the
whitespace-normalized, length-bounded page text that the parsing pipeline
produces; the other constructors are the exception classes the code handles. -/
inductive FetchR
  | success (title text : PyStr)
  | timeoutExc
  | httpError (status : Nat)
  | requestExc (msg : PyStr)
  | otherExc (msg : PyStr)
deriving DecidableEq

/-- The output dictionary of ScraperAgent.execute; none models both an absent
key and an explicit None value. -/
structure ScrapeOut where
  error : Option PyStr
  url : Option PyStr
  title : Option PyStr
  content : Option PyStr
  word_count : Option Nat
  status : Option PyStr
deriving DecidableEq

/-- Number of space-separated words, modelling len of str.split. -/
def wordCountAux : PyStr → Bool → Nat
  | [], _ => 0
  | c :: rest, inw =>
    if c = ' ' then wordCountAux rest false
    else (if inw then 0 else 1) + wordCountAux rest true

/-- Number of space-separated words of a string. -/
def wordCount (s : PyStr) : Nat := wordCountAux s false

/-- The URL scheme check of ScraperAgent.execute. -/
def schemeOk (url : PyStr) : Bool :=
  (pyStr "http://").isPrefixOf url || (pyStr "https://").isPrefixOf url

/-- The fixed price of the standalone scraper agent. -/
def scraperPrice : Rat := 2/100

/-- src/agents/scraper.py ScraperAgent.execute. The url is read with
input_data.get before the try block, so a bare string input raises
AttributeError; missing or malformed urls and every handled fetch exception
are converted into a zero-cost output carrying an error description. -/
def ScraperAgent.execute (input_data : PyInput) (fetch : FetchR) :
    Except PyErr (ScrapeOut × Rat) :=
  match input_data with
  | .str _ => .error .attributeError
  | .dict m =>
    let url := dictLookup m (pyStr "url") []
    if url = [] then
      .ok ({ error := some (pyStr "No URL provided"), url := none, title := none,
             content := none, word_count := none, status := none }, 0)
    else if schemeOk url = false then
      .ok ({ error := some (pyStr "Invalid URL format. Must start with http:// or https://"),
             url := some url, title := none, content := none,
             word_count := none, status := none }, 0)
    else
      match fetch with
      | .success title text =>
        .ok ({ error := none, url := some url, title := some title,
               content := some text, word_count := some (wordCount text),
               status := some (pyStr "success") }, scraperPrice)
      | .timeoutExc =>
        .ok ({ error := some (pyStr "Request timeout after 30 seconds"),
               url := some url, title := none, content := none,
               word_count := none, status := none }, 0)
      | .httpError status =>
        .ok ({ error := some (pyStr "HTTP error: " ++ natChars status),
               url := some url, title := none, content := none,
               word_count := none, status := none }, 0)
      | .requestExc msg =>
        .ok ({ error := some (pyStr "Network error: " ++ msg),
               url := some url, title := none, content := none,
               word_count := none, status := none }, 0)
      | .otherExc msg =>
        .ok ({ error := some (pyStr "Parsing error: " ++ msg),
               url := some url, title := none, content := none,
               word_count := none, status := none }, 0)

/-- Outcome of the LLM backend call made inside SummarizerAgent.execute. -/
inductive LLMOutcome
  | ok (content : PyStr)
  | exn (msg : PyStr)
deriving DecidableEq

/-- src/agents/summarizer.py SummarizerAgent.execute: builds a prompt around
the input and invokes the LLM with no exception handling, so a backend fault
propagates; on success it returns the response content at the fixed demo
cost. -/
def SummarizerAgent.execute (text_input : PyInput) (llm : LLMOutcome) :
    Except PyErr (PyStr × Rat) :=
  match llm with
  | .ok content => .ok (content, 3/100)
  | .exn msg => .error (.backendError msg)

/-! ## Helper lemmas -/

theorem decDigit_toNat (n : Nat) (h : n < 10) : (decDigit n).toNat = 48 + n := by
  interval_cases n <;> rfl

theorem decVal_natChars (n : Nat) : decVal (natChars n) = n := by
  induction n using Nat.strong_induction_on with
  | _ n ih =>
    unfold natChars
    split
    · next h =>
      simp [decVal, decStep, decDigit_toNat n h]
    · next h =>
      have hlt : n / 10 < n := Nat.div_lt_self (by omega) (by omega)
      have ihn := ih (n / 10) hlt
      unfold decVal at ihn ⊢
      rw [List.foldl_append, ihn]
      simp [decStep, decDigit_toNat (n % 10) (Nat.mod_lt n (by omega))]
      omega

theorem natChars_inj {m n : Nat} (h : natChars m = natChars n) : m = n := by
  have := congrArg decVal h
  rwa [decVal_natChars, decVal_natChars] at this

theorem startsWith0x (l : PyStr) :
    (pyStr "0x").isPrefixOf l = true ↔ ∃ t, l = '0' :: 'x' :: t := by
  match l with
  | [] => simp [pyStr, List.isPrefixOf]
  | [c] => simp [pyStr, List.isPrefixOf]
  | c1 :: c2 :: t =>
    show (['0', 'x'].isPrefixOf (c1 :: c2 :: t)) = true ↔ _
    simp [List.isPrefixOf]
    tauto

theorem iouMessage_recipient_inj {r r2 : PyStr} {a n : Nat}
    (h : iouMessage r2 a n = iouMessage r a n) : r2 = r := by
  unfold iouMessage at h
  have h1 := List.append_cancel_right h
  have h2 := List.append_cancel_right h1
  have h3 := List.append_cancel_right h2
  exact List.append_cancel_right h3

theorem iouMessage_amount_inj {r : PyStr} {a a2 n : Nat}
    (h : iouMessage r a2 n = iouMessage r a n) : a2 = a := by
  unfold iouMessage at h
  have h1 := List.append_cancel_right h
  have h2 := List.append_cancel_right h1
  exact natChars_inj (List.append_cancel_left h2)

theorem iouMessage_nonce_inj {r : PyStr} {a n n2 : Nat}
    (h : iouMessage r a n2 = iouMessage r a n) : n2 = n := by
  unfold iouMessage at h
  exact natChars_inj (List.append_cancel_left h)

theorem junkLower_ne_addrLower (u v : PyStr) :
    pyLower (pyStr "?" ++ u) ≠ pyLower (pyStr "ADDR" ++ v) := by
  intro h
  have h2 : ('?' :: u).map Char.toLower = ('A' :: 'D' :: 'D' :: 'R' :: v).map Char.toLower := h
  rw [List.map_cons, List.map_cons] at h2
  injection h2 with hhead _
  exact absurd hhead (by decide)

/-! ## Claim theorems -/

/-- C1 (code-bug evaluation): executing a plan step whose capability IS
registered raises out of run. The specialists built from specialists.py never
override BaseAgent.execute, so the chain invokes a method that raises
NotImplementedError, and run has no handler around worker execution: the
caller receives a raised fault, not a result object. -/
theorem C1_run_step_raises_notImplemented :
    UniversalOrchestrator.run ⟨0⟩ orchestratorSpecialists
        (pyStr "Summarize the following text")
        (some [⟨pyStr "summarizer", pyStr "summarize the text"⟩])
      = .error .notImplemented := rfl

/-- C3 counterexample: on an unparseable backend response the fallback step
instruction is the fixed string "process the input", not the original task
(and the plan carries no wasFallback flag at all), refuting the claimed
fallback shape. -/
theorem C3_cex_fallback_instruction_not_task :
    decomposePlan (pyStr "translate this to French") none
      = [⟨pyStr "summarizer", pyStr "process the input"⟩]
  ∧ pyStr "process the input" ≠ pyStr "translate this to French" :=
  ⟨rfl, by decide⟩

/-- C3 amended: for every task, a parse failure yields deterministically the
single-step plan naming the summarizer with the fixed instruction
"process the input" (the original task is not used, and no wasFallback flag
exists to distinguish the fallback from a genuine plan). -/
theorem C3_fallback_fixed_single_step (task : PyStr) :
    decomposePlan task none = [⟨pyStr "summarizer", pyStr "process the input"⟩] := rfl

/-- C4 counterexample: a two-step plan whose first step names an unregistered
capability; run returns with a trail holding a single entry, the one of the
second (registered) step — no entry for the missing step, no "not found"
reason anywhere. -/
theorem C4_cex_skipped_step_leaves_no_trail :
    UniversalOrchestrator.run ⟨0⟩ [(pyStr "stub", stubWorker)] (pyStr "task")
        (some [⟨pyStr "nope", pyStr "a"⟩, ⟨pyStr "stub", pyStr "b"⟩])
      = .ok ({ final_output := pyStr "out", total_cost := 0 + 1/2,
               steps := [{ step := 2, agent := pyStr "stub",
                           instruction := pyStr "b",
                           output_preview := pyStr "out", cost := 1/2 }] },
             ⟨0 + 1/2⟩)
  ∧ List.all [pyStr "stub"] (fun ag => ag != pyStr "nope") = true :=
  ⟨rfl, by decide⟩

/-- C4 amended: a step naming a capability absent from the registry is skipped
with no trail entry and no cost change, and the chain continues with the
remaining steps from the same data, cost and trail (only the step counter
advances past the skipped position). -/
theorem C4_unknown_capability_skipped_silently (specialists : Specialists)
    (s : PlanStep) (rest : List PlanStep) (i : Nat) (data : PyStr) (tc : Rat)
    (trail : List TrailEntry) (h : dictGet specialists s.agent = none) :
    runSteps specialists (s :: rest) i data tc trail
      = runSteps specialists rest (i + 1) data tc trail := by
  simp [runSteps, h]

/-- Witness for C4 at a concrete registry and plan. -/
theorem C4_witness :
    dictGet [(pyStr "stub", stubWorker)] (pyStr "nope") = none
  ∧ runSteps [(pyStr "stub", stubWorker)]
        [⟨pyStr "nope", pyStr "a"⟩, ⟨pyStr "stub", pyStr "b"⟩] 0 (pyStr "task") 0 []
      = runSteps [(pyStr "stub", stubWorker)]
        [⟨pyStr "stub", pyStr "b"⟩] 1 (pyStr "task") 0 [] :=
  ⟨rfl, C4_unknown_capability_skipped_silently _ _ _ _ _ _ _ rfl⟩

/-- C6 counterexample: the legacy verify_iou propagates the recovery fault on
a malformed signature instead of returning false. -/
theorem C6_cex_verify_iou_propagates :
    verify_iou (SigHex.malformed (pyStr "zz")) (pyStr "0xS") (pyStr "0xR") 5 1
      = .error .badSignature := rfl

/-- C6 amended: verify_payment_signature returns false on any corrupted or
wrong-length signature without raising, while the legacy verify_iou variant
raises (propagates the recovery exception) on the same inputs. -/
theorem C6_malformed_signature_behavior :
    (∀ r exp raw a n,
        verify_payment_signature r a n (SigHex.malformed raw) exp = false)
  ∧ (∀ sa ra raw a n,
        verify_iou (SigHex.malformed raw) sa ra a n = .error .badSignature) := by
  constructor <;> intros <;> rfl

/-- C10: for every hexadecimal private key given without the 0x prefix,
signing with the prefixed and unprefixed forms yields identical vouchers in
every field, because sign_payment_iou normalizes the key prefix. -/
theorem C10_sign_key_normalization (k r : PyStr) (a n : Nat)
    (h : ∀ c ∈ k, hexDigitChar c = true) :
    sign_payment_iou (pyStr "0x" ++ k) r a n = sign_payment_iou k r a n := by
  have h1 : (pyStr "0x").isPrefixOf (pyStr "0x" ++ k) = true := by
    rw [startsWith0x]; exact ⟨k, rfl⟩
  have h2 : (pyStr "0x").isPrefixOf k = false := by
    cases hb : (pyStr "0x").isPrefixOf k
    · rfl
    · obtain ⟨t, ht⟩ := (startsWith0x k).mp hb
      have hx : 'x' ∈ k := by rw [ht]; simp
      exact absurd (h 'x' hx) (by decide)
  simp [sign_payment_iou, h1, h2]

/-- Witness for C10 at a concrete hexadecimal key. -/
theorem C10_witness :
    sign_payment_iou (pyStr "0x" ++ pyStr "abc1") (pyStr "bob") 5 1
      = sign_payment_iou (pyStr "abc1") (pyStr "bob") 5 1 :=
  C10_sign_key_normalization (pyStr "abc1") (pyStr "bob") 5 1 (by decide)

/-- C2: for every private key and every (recipient, amount, sequence) triple,
verifying the voucher produced by sign_payment_iou against the address derived
from that key returns true; and changing any single one of recipient, amount
or sequence while holding the signature fixed makes verification return
false. -/
theorem C2_voucher_roundTrip_and_tamper (pk r : PyStr) (a n : Nat) :
    verify_payment_signature r a n
        (sign_payment_iou pk r a n).signature (addressOf pk) = true
  ∧ (∀ r2, r2 ≠ r → verify_payment_signature r2 a n
        (sign_payment_iou pk r a n).signature (addressOf pk) = false)
  ∧ (∀ a2, a2 ≠ a → verify_payment_signature r a2 n
        (sign_payment_iou pk r a n).signature (addressOf pk) = false)
  ∧ (∀ n2, n2 ≠ n → verify_payment_signature r a n2
        (sign_payment_iou pk r a n).signature (addressOf pk) = false) := by
  refine ⟨?_, ?_, ?_, ?_⟩
  · simp [verify_payment_signature, sign_payment_iou, ethRecover, ethSign, addressOf]
  · intro r2 hne
    have hmsg : ¬ (iouMessage r2 a n = iouMessage r a n) :=
      fun hEq => hne (iouMessage_recipient_inj hEq)
    simp [verify_payment_signature, sign_payment_iou, ethRecover, ethSign, hmsg, addressOf]
    exact junkLower_ne_addrLower _ _
  · intro a2 hne
    have hmsg : ¬ (iouMessage r a2 n = iouMessage r a n) :=
      fun hEq => hne (iouMessage_amount_inj hEq)
    simp [verify_payment_signature, sign_payment_iou, ethRecover, ethSign, hmsg, addressOf]
    exact junkLower_ne_addrLower _ _
  · intro n2 hne
    have hmsg : ¬ (iouMessage r a n2 = iouMessage r a n) :=
      fun hEq => hne (iouMessage_nonce_inj hEq)
    simp [verify_payment_signature, sign_payment_iou, ethRecover, ethSign, hmsg, addressOf]
    exact junkLower_ne_addrLower _ _

/-- Witness for C2 at a concrete key and voucher triple, tampering each field
in turn. -/
theorem C2_witness :
    verify_payment_signature (pyStr "bob") 5 1
        (sign_payment_iou (pyStr "ab") (pyStr "bob") 5 1).signature
        (addressOf (pyStr "ab")) = true
  ∧ verify_payment_signature (pyStr "eve") 5 1
        (sign_payment_iou (pyStr "ab") (pyStr "bob") 5 1).signature
        (addressOf (pyStr "ab")) = false
  ∧ verify_payment_signature (pyStr "bob") 6 1
        (sign_payment_iou (pyStr "ab") (pyStr "bob") 5 1).signature
        (addressOf (pyStr "ab")) = false
  ∧ verify_payment_signature (pyStr "bob") 5 2
        (sign_payment_iou (pyStr "ab") (pyStr "bob") 5 1).signature
        (addressOf (pyStr "ab")) = false :=
  ⟨(C2_voucher_roundTrip_and_tamper (pyStr "ab") (pyStr "bob") 5 1).1,
   (C2_voucher_roundTrip_and_tamper (pyStr "ab") (pyStr "bob") 5 1).2.1
     (pyStr "eve") (by decide),
   (C2_voucher_roundTrip_and_tamper (pyStr "ab") (pyStr "bob") 5 1).2.2.1
     6 (by decide),
   (C2_voucher_roundTrip_and_tamper (pyStr "ab") (pyStr "bob") 5 1).2.2.2
     2 (by decide)⟩

/-- C5 counterexample: the orchestrator instance counter is not re-initialized
per call: the second run call (seeded with the state the first call returned)
reports 0 + 1/2 + 1/2 although the only step it executed cost 1/2. -/
theorem C5_cex_second_run_accumulates :
    UniversalOrchestrator.run ⟨0⟩ [(pyStr "stub", stubWorker)] (pyStr "t")
        (some [⟨pyStr "stub", pyStr "s"⟩])
      = .ok (⟨pyStr "out", 0 + 1/2, [⟨1, pyStr "stub", pyStr "s", pyStr "out", 1/2⟩]⟩,
             ⟨0 + 1/2⟩)
  ∧ UniversalOrchestrator.run ⟨0 + 1/2⟩ [(pyStr "stub", stubWorker)] (pyStr "t")
        (some [⟨pyStr "stub", pyStr "s"⟩])
      = .ok (⟨pyStr "out", 0 + 1/2 + 1/2,
              [⟨1, pyStr "stub", pyStr "s", pyStr "out", 1/2⟩]⟩,
             ⟨0 + 1/2 + 1/2⟩)
  ∧ (0 + (1 : Rat)/2 + 1/2) ≠ 1/2 :=
  ⟨rfl, rfl, by norm_num⟩

/-- C5 amended: run reports the instance counter value at entry plus the costs
of the steps executed in this call (so a second call includes the first call
costs); within the call, step 2 receives exactly the output of step 1, step 1
receives the task, and the final output is the last executed output. -/
theorem C5_run_threads_and_accumulates (o : Orchestrator) (sp : Specialists)
    (task : PyStr) (n1 n2 i1 i2 : PyStr) (w1 w2 : Worker)
    (out1 out2 : PyStr) (c1 c2 : Rat)
    (h1 : dictGet sp n1 = some w1) (h2 : dictGet sp n2 = some w2)
    (hw1 : w1 task = .ok (out1, c1)) (hw2 : w2 out1 = .ok (out2, c2)) :
    UniversalOrchestrator.run o sp task (some [⟨n1, i1⟩, ⟨n2, i2⟩])
      = .ok ({ final_output := out2,
               total_cost := o.total_cost + c1 + c2,
               steps := [⟨1, n1, i1, preview200 out1, c1⟩,
                         ⟨2, n2, i2, preview200 out2, c2⟩] },
             ⟨o.total_cost + c1 + c2⟩) := by
  simp [UniversalOrchestrator.run, decomposePlan, runSteps, h1, h2, hw1, hw2]

/-- Witness for C5: two stub steps chained on a concrete registry. -/
theorem C5_witness :
    UniversalOrchestrator.run ⟨0⟩
        [(pyStr "stub", stubWorker), (pyStr "stub2", stubWorker)] (pyStr "t")
        (some [⟨pyStr "stub", pyStr "s1"⟩, ⟨pyStr "stub2", pyStr "s2"⟩])
      = .ok ({ final_output := pyStr "out",
               total_cost := (⟨0⟩ : Orchestrator).total_cost + 1/2 + 1/2,
               steps := [⟨1, pyStr "stub", pyStr "s1", preview200 (pyStr "out"), 1/2⟩,
                         ⟨2, pyStr "stub2", pyStr "s2", preview200 (pyStr "out"), 1/2⟩] },
             ⟨(⟨0⟩ : Orchestrator).total_cost + 1/2 + 1/2⟩) :=
  C5_run_threads_and_accumulates ⟨0⟩
    [(pyStr "stub", stubWorker), (pyStr "stub2", stubWorker)]
    (pyStr "t") (pyStr "stub") (pyStr "stub2") (pyStr "s1") (pyStr "s2")
    stubWorker stubWorker (pyStr "out") (pyStr "out") (1/2) (1/2)
    rfl rfl rfl rfl

/-- C7 counterexample: a bare string input (the shape the chain threads
forward) makes the scraper execute raise AttributeError, because the url is
read with a dictionary attribute access before the try block. -/
theorem C7_cex_scraper_bare_string_raises :
    ScraperAgent.execute (PyInput.str (pyStr "https://example.com"))
        (FetchR.success (pyStr "Example Domain") (pyStr "some body text"))
      = .error .attributeError := rfl

/-- C7 amended: for structured-record inputs the scraper always returns an
output/cost pair without raising, and whenever that output carries an error
description the cost is 0; the summarizer accepts both input shapes and
returns an output/cost pair when the backend call succeeds, but propagates a
backend fault instead of converting it. -/
theorem C7_worker_error_conversion :
    (∀ m fetch, ∃ out c, ScraperAgent.execute (PyInput.dict m) fetch = .ok (out, c))
  ∧ (∀ m fetch out c, ScraperAgent.execute (PyInput.dict m) fetch = .ok (out, c) →
        out.error.isSome = true → c = 0)
  ∧ (∀ inp content, SummarizerAgent.execute inp (LLMOutcome.ok content)
        = .ok (content, 3/100))
  ∧ (∀ inp msg, SummarizerAgent.execute inp (LLMOutcome.exn msg)
        = .error (.backendError msg)) := by
  refine ⟨?_, ?_, fun _ _ => rfl, fun _ _ => rfl⟩
  · intro m fetch
    simp only [ScraperAgent.execute]
    by_cases hu : dictLookup m (pyStr "url") [] = []
    · rw [if_pos hu]; exact ⟨_, _, rfl⟩
    · rw [if_neg hu]
      by_cases hs : schemeOk (dictLookup m (pyStr "url") []) = false
      · rw [if_pos hs]; exact ⟨_, _, rfl⟩
      · rw [if_neg hs]
        cases fetch <;> exact ⟨_, _, rfl⟩
  · intro m fetch out c h herr
    simp only [ScraperAgent.execute] at h
    by_cases hu : dictLookup m (pyStr "url") [] = []
    · rw [if_pos hu] at h
      injection h with hp
      injection hp with ho hc
      exact hc.symm
    · rw [if_neg hu] at h
      by_cases hs : schemeOk (dictLookup m (pyStr "url") []) = false
      · rw [if_pos hs] at h
        injection h with hp
        injection hp with ho hc
        exact hc.symm
      · rw [if_neg hs] at h
        cases fetch with
        | success title text =>
          injection h with hp
          injection hp with ho hc
          rw [← ho] at herr
          simp at herr
        | timeoutExc =>
          injection h with hp; injection hp with ho hc; exact hc.symm
        | httpError status =>
          injection h with hp; injection hp with ho hc; exact hc.symm
        | requestExc msg =>
          injection h with hp; injection hp with ho hc; exact hc.symm
        | otherExc msg =>
          injection h with hp; injection hp with ho hc; exact hc.symm

/-- Witness for C7: a concrete record input whose fetch times out yields a
zero-cost error-shaped output. -/
theorem C7_witness : (0 : Rat) = 0 :=
  C7_worker_error_conversion.2.1 [(pyStr "url", pyStr "http://x")]
    FetchR.timeoutExc
    { error := some (pyStr "Request timeout after 30 seconds"),
      url := some (pyStr "http://x"), title := none, content := none,
      word_count := none, status := none } 0 rfl rfl

/-- A successful generate_iou call bumps the nonce by exactly one, signs with
the bumped value, and touches neither the key nor the earnings counters. -/
theorem generate_iou_ok {a a2 : BaseAgentState} {ww : PyStr} {am : Nat}
    {v : Voucher} (h : a.generate_iou ww am = .ok (v, a2)) :
    v.nonce = a.nonce + 1 ∧ a2.nonce = a.nonce + 1
  ∧ a2.private_key = a.private_key
  ∧ a2.total_earned = a.total_earned
  ∧ a2.jobs_completed = a.jobs_completed := by
  unfold BaseAgentState.generate_iou at h
  cases hpk : a.private_key with
  | none => rw [hpk] at h; exact absurd h (by simp)
  | some pk =>
    rw [hpk] at h
    dsimp only at h
    by_cases hpke : pk = []
    · rw [if_pos hpke] at h; exact absurd h (by simp)
    · rw [if_neg hpke] at h
      injection h with hp
      injection hp with hv ha
      refine ⟨?_, ?_, ?_, ?_, ?_⟩
      · rw [← hv]; rfl
      · rw [← ha]
      · rw [← ha]
      · rw [← ha]
      · rw [← ha]

/-- C8: a fresh identity starts its sequence counter at 0, and two
consecutive voucher-issuing calls on the same identity use strictly
increasing, never equal, sequence values. -/
theorem C8_sequence_starts_zero_strictly_increases
    (name svc : PyStr) (price : Rat) (w k : Option PyStr)
    (a a1 a2 : BaseAgentState) (ww1 ww2 : PyStr) (am1 am2 : Nat)
    (v1 v2 : Voucher)
    (h1 : a.generate_iou ww1 am1 = .ok (v1, a1))
    (h2 : a1.generate_iou ww2 am2 = .ok (v2, a2)) :
    (BaseAgentState.init name svc price w k).nonce = 0
  ∧ v1.nonce < v2.nonce ∧ v1.nonce ≠ v2.nonce := by
  have g1 := generate_iou_ok h1
  have g2 := generate_iou_ok h2
  refine ⟨rfl, ?_, ?_⟩
  · rw [g1.1, g2.1, g1.2.1]; omega
  · rw [g1.1, g2.1, g1.2.1]; omega

/-- Witness for C8: a concrete registered identity issuing two vouchers. -/
theorem C8_witness :
    (BaseAgentState.init (pyStr "T") (pyStr "svc") 1 none (some (pyStr "ab"))).nonce = 0
  ∧ (sign_payment_iou (pyStr "ab") (pyStr "bob") 5 1).nonce
      < (sign_payment_iou (pyStr "ab") (pyStr "eve") 7 2).nonce
  ∧ (sign_payment_iou (pyStr "ab") (pyStr "bob") 5 1).nonce
      ≠ (sign_payment_iou (pyStr "ab") (pyStr "eve") 7 2).nonce :=
  C8_sequence_starts_zero_strictly_increases (pyStr "T") (pyStr "svc") 1 none
    (some (pyStr "ab"))
    (BaseAgentState.init (pyStr "T") (pyStr "svc") 1 none (some (pyStr "ab")))
    { BaseAgentState.init (pyStr "T") (pyStr "svc") 1 none (some (pyStr "ab"))
        with nonce := 1 }
    { BaseAgentState.init (pyStr "T") (pyStr "svc") 1 none (some (pyStr "ab"))
        with nonce := 2 }
    (pyStr "bob") (pyStr "eve") 5 7
    (sign_payment_iou (pyStr "ab") (pyStr "bob") 5 1)
    (sign_payment_iou (pyStr "ab") (pyStr "eve") 7 2)
    rfl rfl

/-- C9 counterexample: confirm_payment accepts any amount argument and adds
it unconditionally, so a call with a negative amount strictly decreases
total_earned, refuting monotonic non-decrease under arbitrary calls. -/
theorem C9_cex_negative_amount_decreases_earned :
    (((BaseAgentState.init (pyStr "T") (pyStr "svc") 1 none none).confirm_payment
        (pyStr "ch") (-1) (pyStr "w")).2).total_earned
      < (BaseAgentState.init (pyStr "T") (pyStr "svc") 1 none none).total_earned := by
  norm_num [BaseAgentState.confirm_payment, BaseAgentState.init]

/-- C9 amended: every confirm_payment call returns true, adds exactly the
given amount to total_earned (non-decreasing whenever the amount is
nonnegative) and increments jobs_completed by exactly one (always
non-decreasing); repeated calls for the same voucher double-count; and the
other state-touching operations (register, generate_iou) leave both counters
unchanged. -/
theorem C9_confirm_payment_accounting (a : BaseAgentState) (ch : PyStr)
    (amt : Rat) (fw : PyStr) :
    (a.confirm_payment ch amt fw).1 = true
  ∧ ((a.confirm_payment ch amt fw).2).total_earned = a.total_earned + amt
  ∧ ((a.confirm_payment ch amt fw).2).jobs_completed = a.jobs_completed + 1
  ∧ (0 ≤ amt → a.total_earned ≤ ((a.confirm_payment ch amt fw).2).total_earned)
  ∧ a.jobs_completed ≤ ((a.confirm_payment ch amt fw).2).jobs_completed
  ∧ ((((a.confirm_payment ch amt fw).2).confirm_payment ch amt fw).2).total_earned
      = a.total_earned + amt + amt
  ∧ (∀ resp, ((a.register resp).2).total_earned = a.total_earned
       ∧ ((a.register resp).2).jobs_completed = a.jobs_completed)
  ∧ (∀ ww am v a3, a.generate_iou ww am = .ok (v, a3) →
       a3.total_earned = a.total_earned ∧ a3.jobs_completed = a.jobs_completed) := by
  refine ⟨rfl, rfl, rfl, ?_, ?_, rfl, ?_, ?_⟩
  · intro h
    simp only [BaseAgentState.confirm_payment]
    linarith
  · simp [BaseAgentState.confirm_payment]
  · intro resp; cases resp <;> exact ⟨rfl, rfl⟩
  · intro ww am v a3 h
    exact ⟨(generate_iou_ok h).2.2.2.1, (generate_iou_ok h).2.2.2.2⟩

/-- Witness for C9 at a concrete identity, confirming a nonnegative amount
and issuing one voucher. -/
theorem C9_witness :
    (BaseAgentState.init (pyStr "T") (pyStr "svc") 1 none (some (pyStr "ab"))).total_earned
      ≤ (((BaseAgentState.init (pyStr "T") (pyStr "svc") 1 none (some (pyStr "ab"))).confirm_payment
            (pyStr "ch") 1 (pyStr "w")).2).total_earned
  ∧ ({ BaseAgentState.init (pyStr "T") (pyStr "svc") 1 none (some (pyStr "ab"))
        with nonce := 1 }).total_earned
      = (BaseAgentState.init (pyStr "T") (pyStr "svc") 1 none (some (pyStr "ab"))).total_earned
  ∧ ({ BaseAgentState.init (pyStr "T") (pyStr "svc") 1 none (some (pyStr "ab"))
        with nonce := 1 }).jobs_completed
      = (BaseAgentState.init (pyStr "T") (pyStr "svc") 1 none (some (pyStr "ab"))).jobs_completed :=
  ⟨(C9_confirm_payment_accounting
      (BaseAgentState.init (pyStr "T") (pyStr "svc") 1 none (some (pyStr "ab")))
      (pyStr "ch") 1 (pyStr "w")).2.2.2.1 (by norm_num),
   ((C9_confirm_payment_accounting
      (BaseAgentState.init (pyStr "T") (pyStr "svc") 1 none (some (pyStr "ab")))
      (pyStr "ch") 1 (pyStr "w")).2.2.2.2.2.2.2
      (pyStr "bob") 5 (sign_payment_iou (pyStr "ab") (pyStr "bob") 5 1)
      { BaseAgentState.init (pyStr "T") (pyStr "svc") 1 none (some (pyStr "ab"))
          with nonce := 1 } rfl).1,
   ((C9_confirm_payment_accounting
      (BaseAgentState.init (pyStr "T") (pyStr "svc") 1 none (some (pyStr "ab")))
      (pyStr "ch") 1 (pyStr "w")).2.2.2.2.2.2.2
      (pyStr "bob") 5 (sign_payment_iou (pyStr "ab") (pyStr "bob") 5 1)
      { BaseAgentState.init (pyStr "T") (pyStr "svc") 1 none (some (pyStr "ab"))
          with nonce := 1 } rfl).2⟩
